import Mathlib

/-!
Verification of the seekr crawler (src/crawler.ts).

The development shallowly embeds the crawl pipeline of `Crawler.performCrawl`
together with the small amount of surrounding state (`crawledUrls`, `counter`,
`numberAdded`, the url queue) as pure Lean functions over explicit state.
External collaborators (puppeteer page fetch, screenshot capture) are inputs
to the step function: a `FetchOutcome` value stands for the outcome of
`page.goto`/`page.content`/`page.$$eval`, and a boolean stands for whether
`page.screenshot` succeeds.

JavaScript string primitives used by the source (`split(' ')`,
`toLowerCase()`, `Set` dedup with insertion order) are embedded as structural
functions over `String.data` so that all definitions evaluate inside the
kernel.  `toLowerCase` is embedded ASCII-only via `Char.toLower`, matching
the source's use on ASCII page text.
-/

/-- Embedding of JavaScript `Array.from(new Set(xs))`: removes duplicates
keeping the first occurrence of each element, in order. -/
def dedupFirst (l : List String) : List String :=
  l.foldl (fun acc x => if acc.contains x then acc else acc ++ [x]) []

/-- Splits a character list at every character satisfying `p`, keeping empty
segments, as JavaScript `String.prototype.split` with a one-character
separator does (`"a  b".split(' ') = ["a","","b"]`, `"".split(' ') = [""]`). -/
def splitChars (p : Char → Bool) : List Char → List (List Char)
  | [] => [[]]
  | c :: cs =>
    let r := splitChars p cs
    if p c then [] :: r
    else
      match r with
      | [] => [[c]]
      | w :: ws => (c :: w) :: ws

/-- Embedding of JavaScript `s.split(sep)` for a one-character separator
predicate, structural over the string's characters. -/
def jsSplit (s : String) (p : Char → Bool) : List String :=
  (splitChars p s.data).map (fun cs => String.mk cs)

/-- Embedding of JavaScript `s.toLowerCase()` (ASCII range only, matching
`Char.toLower`), structural over the string's characters. -/
def jsToLower (s : String) : String :=
  String.mk (s.data.map Char.toLower)

/-- Does the second list start with the first one? Used to embed URL scheme
checks of the link classifier. -/
def startsWithChars : List Char → List Char → Bool
  | [], _ => true
  | _ :: _, [] => false
  | a :: as, b :: bs => a == b && startsWithChars as bs

/-- Modelled from the spec: the `CrawlableLink` class is imported from
`src/crawlableLink.ts`, which is not among the provided sources; §4.2 of the
spec describes it: a link is crawlable iff it parses as an absolute URL with
an http/https scheme; `crawlableUrl` is the normalized crawl URL and
`hostname` is the URL authority's host. -/
structure CrawlableLink where
  raw : String
deriving Repr, DecidableEq

/-- Modelled from the spec: crawlable iff the raw string is an absolute
http/https URL. -/
def CrawlableLink.isCrawlable (l : CrawlableLink) : Bool :=
  startsWithChars "https://".data l.raw.data ||
    startsWithChars "http://".data l.raw.data

/-- Modelled from the spec: the characters following the URL scheme, when the
link has an http/https scheme. -/
def CrawlableLink.schemeRest (l : CrawlableLink) : Option (List Char) :=
  if startsWithChars "https://".data l.raw.data then
    some (l.raw.data.drop 8)
  else if startsWithChars "http://".data l.raw.data then
    some (l.raw.data.drop 7)
  else
    none

/-- Modelled from the spec: hostname extraction by standard URL authority
parsing (the host part ends at the first `/`, `:`, `?` or `#`). -/
def CrawlableLink.hostname (l : CrawlableLink) : String :=
  match l.schemeRest with
  | some rest =>
      String.mk (rest.takeWhile (fun c => !(c == '/' || c == ':' || c == '?' || c == '#')))
  | none => ""

/-- Modelled from the spec: the normalized crawl URL of the link (the hrefs
handed over by the browser are already absolute). -/
def CrawlableLink.crawlableUrl (l : CrawlableLink) : String :=
  l.raw

/-- Embedding of the crawlability filter callback of crawler.ts lines
209-211: `(link: CrawlableLink) => { link.isCrawlable }`.  The arrow function
has a block body without a `return`, so it evaluates `link.isCrawlable`,
discards it, and returns `undefined`, which is falsy: the filter keeps no
element. -/
def crawlableFilterPred (_ : CrawlableLink) : Bool :=
  false

/-- Embedding of the interesting-domain filter callback of crawler.ts lines
215-217: `(link: string) => { this.interestingDomains.has(new CrawlableLink(link).hostname) }`.
Again a block body without `return`: the callback yields `undefined`
(falsy) for every link. -/
def interestingFilterPred (_ : List String) (_ : String) : Bool :=
  false

/-- Embedding of the `validLinks` computation of crawler.ts lines 203-212:
dedup the hrefs (`Array.from(new Set(hrefsFromPage))`), wrap each in a
`CrawlableLink`, filter with the (broken, always-false) crawlability
callback, and project to `crawlableUrl`. -/
def validLinks (hrefsFromPage : List String) : List String :=
  (((dedupFirst hrefsFromPage).map CrawlableLink.mk).filter
    crawlableFilterPred).map CrawlableLink.crawlableUrl

/-- Embedding of the `words` computation of crawler.ts lines 192-195:
`content.split(' ').map(w => w.toLowerCase()).filter(w => w.length > minimumWordLength)`. -/
def pageWords (content : String) (mn : Nat) : List String :=
  ((jsSplit content (fun c => c == ' ')).map jsToLower).filter
    (fun w => decide (mn < w.length))

/-- Embedding of the dictionary matching of crawler.ts lines 192-195 and
222-226: the `found` set collects, in first-occurrence order, the page words
that are members of the dictionary. -/
def matchWords (content : String) (dict : List String) (mn : Nat) : List String :=
  dedupFirst ((pageWords content mn).filter (fun w => dict.contains w))

/-- Follows the spec's words (§4.3, claim C5), for comparison with
`matchWords`: splits the text on whitespace (not only on the space
character), lowercases, discards tokens of length at most the minimum, and
keeps the tokens present in the dictionary. -/
def matchWordsSpec (content : String) (dict : List String) (mn : Nat) : List String :=
  dedupFirst ((((jsSplit content (fun c => c.isWhitespace)).map jsToLower).filter
    (fun w => decide (mn < w.length))).filter (fun w => dict.contains w))

/-- The mutable crawler state touched by `performCrawl` and `enqueueCrawl`:
configuration fields (read-only during a run) together with `crawledUrls`,
`counter`, `numberAdded` and the contents of the url queue. -/
structure CrawlState where
  dictionary : List String
  interestingDomains : List String
  minimumWordLength : Nat
  takeScreenshots : Bool
  crawledUrls : List String
  counter : Nat
  numberAdded : Nat
  queue : List String
deriving Repr, DecidableEq

/-- Outcome of the external page fetch (puppeteer `page.goto` +
`page.content` + `page.$$eval` on crawler.ts lines 185-201): either some
error is thrown (timeout, network, protocol), or the rendered text and the
page's hrefs are returned. -/
inductive FetchOutcome where
  | fetchError
  | success (content : String) (hrefsFromPage : List String)
deriving Repr, DecidableEq

/-- The result objects built by `performCrawl`:
`{found:false, status:'already crawled'}`, `{found:true, url, matches, links}`,
`{found:false, url, words:''}` and `{found:false, url, error}`. -/
inductive CrawlResult where
  | alreadyCrawled (url : String)
  | found (url : String) (matchList : List String) (links : List String)
  | notFound (url : String)
  | failed (url : String)
deriving Repr, DecidableEq

/-- Is this result a Found result? -/
def CrawlResult.isFound : CrawlResult → Bool
  | .found _ _ _ => true
  | _ => false

/-- The `links` field of a result (empty for non-Found results). -/
def resultLinks : CrawlResult → List String
  | .found _ _ links => links
  | _ => []

/-- What one call to `performCrawl` produces: the updated crawler state, the
results passed to `this.output` (the Sink), and the result passed to the
task completion callback, when one was supplied. -/
structure CrawlOutcome where
  state : CrawlState
  sinkOut : List CrawlResult
  callbackOut : Option CrawlResult
deriving Repr, DecidableEq

/-- Embedding of `Crawler.performCrawl` (crawler.ts lines 145-261), with
`debug` fixed to its default `false` (so no log lines reach the output).
Faithful points to note:
  - the already-crawled early `return` sits inside `if (callback)`
    (lines 146-151), so without a callback the check falls through;
  - `crawledUrls.add(url)` and `counter++` run before the fetch and are
    never rolled back;
  - both link-filter callbacks return `undefined` (see
    `crawlableFilterPred`, `interestingFilterPred`), so `enqueueCrawl`
    (queue push + `numberAdded++`) runs for no link;
  - `page.screenshot` runs inside the `try` before `this.output(result)`,
    so a screenshot failure lands in the `catch`, which overwrites the
    Found result with `{found:false, url, error}`;
  - only the Found branch calls `this.output(result)`; every branch hands
    its result to the completion callback when one exists. -/
def performCrawl (st : CrawlState) (url : String) (hasCallback : Bool)
    (fetch : FetchOutcome) (screenshotOk : Bool) : CrawlOutcome :=
  if st.crawledUrls.contains url && hasCallback then
    ⟨st, [], some (.alreadyCrawled url)⟩
  else
    let st1 : CrawlState := { st with
      crawledUrls :=
        if st.crawledUrls.contains url then st.crawledUrls
        else st.crawledUrls ++ [url],
      counter := st.counter + 1 }
    match fetch with
    | .fetchError =>
        ⟨st1, [], if hasCallback then some (.failed url) else none⟩
    | .success content hrefsFromPage =>
        let links := validLinks hrefsFromPage
        let enq := links.filter (interestingFilterPred st.interestingDomains)
        let st2 : CrawlState := { st1 with
          queue := st1.queue ++ enq,
          numberAdded := st1.numberAdded + enq.length }
        let matched := matchWords content st.dictionary st.minimumWordLength
        if matched.isEmpty then
          ⟨st2, [], if hasCallback then some (.notFound url) else none⟩
        else if st.takeScreenshots && !screenshotOk then
          ⟨st2, [], if hasCallback then some (.failed url) else none⟩
        else
          ⟨st2, [CrawlResult.found url matched links],
            if hasCallback then some (.found url matched links) else none⟩

/-- Modelled from the spec: the task queue is the external `async.queue`
library (only its registration sites, crawler.ts lines 119-131, are in the
sources).  State of the sequential scheduler model of §4.4 combined with the
crawler's drain callback (lines 124-131), which sets `finished := true`:
pending tasks, whether the scheduler has stopped (drained), how many times
the drain callback has fired, and the `finished` flag behind `isFinished`
(lines 82-84). -/
structure SchedulerState where
  queue : List String
  stopped : Bool
  drainCount : Nat
  finished : Bool
deriving Repr, DecidableEq

/-- Modelled from the spec (§4.4): one scheduler step.  A stopped scheduler
accepts no further work; on an empty queue the drain callback fires and the
scheduler stops; otherwise the next task is processed and the tasks it
discovers (`expand`) are enqueued. -/
def schedStep (expand : String → List String) (s : SchedulerState) : SchedulerState :=
  if s.stopped then s
  else
    match s.queue with
    | [] => { s with stopped := true, drainCount := s.drainCount + 1, finished := true }
    | t :: rest => { s with queue := rest ++ expand t }

/-- Runs the scheduler model for a given number of steps. -/
def schedRun (expand : String → List String) : Nat → SchedulerState → SchedulerState
  | 0, s => s
  | n + 1, s => schedRun expand n (schedStep expand s)

/-- The scheduler state at the start of a run: seed tasks queued, not
stopped, drain callback not yet fired, `finished = false`. -/
def initSched (seeds : List String) : SchedulerState :=
  ⟨seeds, false, 0, false⟩

/-! ### Helper lemmas -/

theorem contains_iff_mem (l : List String) (a : String) :
    l.contains a = true ↔ a ∈ l := by
  simp [List.contains]

theorem mem_foldl_dedup (l : List String) :
    ∀ (acc : List String) (w : String),
      (w ∈ l.foldl (fun acc x => if acc.contains x then acc else acc ++ [x]) acc) ↔
        (w ∈ acc ∨ w ∈ l) := by
  induction l with
  | nil =>
    intro acc w
    simp
  | cons x xs ih =>
    intro acc w
    simp only [List.foldl_cons]
    rw [ih]
    by_cases hx : acc.contains x = true
    · have hmem : x ∈ acc := (contains_iff_mem acc x).mp hx
      rw [if_pos hx]
      simp only [List.mem_cons]
      constructor
      · rintro (h | h)
        · exact Or.inl h
        · exact Or.inr (Or.inr h)
      · rintro (h | h | h)
        · exact Or.inl h
        · exact Or.inl (h ▸ hmem)
        · exact Or.inr h
    · rw [if_neg hx]
      simp only [List.mem_append, List.mem_singleton, List.mem_cons]
      tauto

theorem mem_dedupFirst (w : String) (l : List String) :
    w ∈ dedupFirst l ↔ w ∈ l := by
  simpa [dedupFirst] using mem_foldl_dedup l [] w

theorem charToNat_ofNat_valid (n : Nat) (h : n.isValidChar) :
    (Char.ofNat n).toNat = n := by
  simp only [Char.ofNat]
  rw [dif_pos h]
  rfl

theorem charToLower_idem (c : Char) : c.toLower.toLower = c.toLower := by
  unfold Char.toLower
  by_cases h : c.toNat ≥ 65 ∧ c.toNat ≤ 90
  · rw [if_pos h]
    have hv : (c.toNat + 32).isValidChar := Or.inl (by omega)
    rw [charToNat_ofNat_valid _ hv]
    rw [if_neg (by omega)]
  · rw [if_neg h, if_neg h]

theorem jsToLower_idem (s : String) : jsToLower (jsToLower s) = jsToLower s := by
  simp only [jsToLower, List.map_map]
  exact congrArg String.mk (List.map_congr_left (fun c _ => charToLower_idem c))

theorem validLinks_eq_nil (hrefs : List String) : validLinks hrefs = [] := by
  simp [validLinks, crawlableFilterPred]

theorem interesting_filter_eq_nil (doms : List String) (links : List String) :
    links.filter (interestingFilterPred doms) = [] := by
  simp [interestingFilterPred]

/-! ### Scheduler invariants -/

/-- The state invariant of the scheduler model: the drain callback has fired
exactly once iff the scheduler is stopped, and the `finished` flag tracks
exactly the drain transition. -/
def schedInv (s : SchedulerState) : Prop :=
  s.drainCount = (if s.stopped then 1 else 0) ∧ s.finished = s.stopped

theorem schedStep_inv (expand : String → List String) {s : SchedulerState}
    (h : schedInv s) : schedInv (schedStep expand s) := by
  obtain ⟨h1, h2⟩ := h
  unfold schedStep
  by_cases hs : s.stopped = true
  · rw [if_pos hs]
    exact ⟨h1, h2⟩
  · rw [if_neg hs]
    cases hq : s.queue with
    | nil =>
      refine ⟨?_, rfl⟩
      simp only [if_true]
      have hs' : s.stopped = false := by
        cases hss : s.stopped
        · rfl
        · exact absurd hss hs
      rw [h1, hs']
      simp
    | cons t rest =>
      exact ⟨h1, h2⟩

theorem schedRun_inv (expand : String → List String) :
    ∀ (n : Nat) {s : SchedulerState}, schedInv s → schedInv (schedRun expand n s) := by
  intro n
  induction n with
  | zero => intro s h; exact h
  | succ n ih => intro s h; exact ih (schedStep_inv expand h)

theorem schedStep_stopped (expand : String → List String) {s : SchedulerState}
    (h : s.stopped = true) : schedStep expand s = s := by
  simp [schedStep, h]

theorem schedRun_stopped (expand : String → List String) :
    ∀ (n : Nat) {s : SchedulerState}, s.stopped = true → schedRun expand n s = s := by
  intro n
  induction n with
  | zero => intro s _; rfl
  | succ n ih =>
    intro s h
    show schedRun expand n (schedStep expand s) = s
    rw [schedStep_stopped expand h]
    exact ih h

theorem schedRun_add (expand : String → List String) :
    ∀ (m n : Nat) (s : SchedulerState),
      schedRun expand (m + n) s = schedRun expand n (schedRun expand m s) := by
  intro m
  induction m with
  | zero =>
    intro n s
    rw [Nat.zero_add]
    rfl
  | succ m ih =>
    intro n s
    have hmn : m + 1 + n = (m + n) + 1 := by omega
    rw [hmn]
    show schedRun expand (m + n) (schedStep expand s) = schedRun expand n (schedRun expand m (schedStep expand s))
    exact ih n (schedStep expand s)

/-! ### Claims -/

/-- C3: per run, the drain callback fires exactly once no matter how many
tasks were processed or discovered mid-run, and the `finished` flag behind
`isFinished` starts `false`, is flipped to `true` by the drain callback, and
never reverts (it stays `true`, and the drain count stays 1, for any number
of further steps).  Stated over the scheduler model (the queue is the
external async library), for every expansion function, seed list, and fuel
under which the run drains. -/
theorem c3_drain_fires_exactly_once (expand : String → List String)
    (seeds : List String) (fuel : Nat)
    (h : (schedRun expand fuel (initSched seeds)).stopped = true) :
    (initSched seeds).finished = false ∧
    (schedRun expand fuel (initSched seeds)).drainCount = 1 ∧
    (schedRun expand fuel (initSched seeds)).finished = true ∧
    ∀ extra : Nat,
      (schedRun expand (fuel + extra) (initSched seeds)).drainCount = 1 ∧
      (schedRun expand (fuel + extra) (initSched seeds)).finished = true := by
  have hinv : schedInv (schedRun expand fuel (initSched seeds)) :=
    schedRun_inv expand fuel ⟨rfl, rfl⟩
  obtain ⟨h1, h2⟩ := hinv
  rw [h] at h1 h2
  refine ⟨rfl, by simpa using h1, h2, ?_⟩
  intro extra
  rw [schedRun_add expand fuel extra, schedRun_stopped expand extra h]
  exact ⟨by simpa using h1, h2⟩

/-- Witness for C3: with no frontier expansion and one seed, the run drains
after two steps, the drain callback has fired exactly once, and `finished`
is `true` and stays `true`. -/
theorem c3_drain_fires_exactly_once_witness :
    (schedRun (fun _ => []) 2 (initSched ["https://a.test"])).stopped = true ∧
    ((initSched ["https://a.test"]).finished = false ∧
      (schedRun (fun _ => []) 2 (initSched ["https://a.test"])).drainCount = 1 ∧
      (schedRun (fun _ => []) 2 (initSched ["https://a.test"])).finished = true ∧
      ∀ extra : Nat,
        (schedRun (fun _ => []) (2 + extra) (initSched ["https://a.test"])).drainCount = 1 ∧
        (schedRun (fun _ => []) (2 + extra) (initSched ["https://a.test"])).finished = true) :=
  ⟨by decide, c3_drain_fires_exactly_once (fun _ => []) ["https://a.test"] 2 (by decide)⟩

/-- C9: every word in a match set is a member of the dictionary (so the
match set is a subset of the dictionary), is entirely lowercase (a fixed
point of lowercasing), and has length strictly greater than the minimum
word length. -/
theorem c9_matches_in_dictionary_lowercase_long
    (content : String) (dict : List String) (mn : Nat) (w : String)
    (h : w ∈ matchWords content dict mn) :
    dict.contains w = true ∧ jsToLower w = w ∧ mn < w.length := by
  rw [matchWords, mem_dedupFirst, List.mem_filter] at h
  obtain ⟨hp, hdict⟩ := h
  rw [pageWords, List.mem_filter] at hp
  obtain ⟨hmap, hlen⟩ := hp
  refine ⟨hdict, ?_, by simpa using hlen⟩
  obtain ⟨t, _, rfl⟩ := List.mem_map.mp hmap
  exact jsToLower_idem t

/-- Witness for C9: the word matched on the page text `"seekr rocks"` with
dictionary `{"seekr"}` and minimum length 3 is in the dictionary, lowercase,
and longer than 3 characters. -/
theorem c9_matches_in_dictionary_lowercase_long_witness :
    ("seekr" ∈ matchWords "seekr rocks" ["seekr"] 3) ∧
    (["seekr"].contains "seekr" = true ∧ jsToLower "seekr" = "seekr" ∧
      3 < "seekr".length) :=
  ⟨by decide,
    c9_matches_in_dictionary_lowercase_long "seekr rocks" ["seekr"] 3 "seekr" (by decide)⟩

/-- C5 counterexample: the matcher does not split on general whitespace.
On the text `"dogs\ncats"` (a newline-separated pair of dictionary words,
minimum length 3) the code's matcher returns the empty set, while the
claimed whitespace-splitting matcher returns both words: the code splits on
the space character only, so the whole text stays one token, which is not in
the dictionary. -/
theorem c5_counterexample :
    matchWords "dogs\ncats" ["dogs", "cats"] 3 = [] ∧
    matchWordsSpec "dogs\ncats" ["dogs", "cats"] 3 = ["dogs", "cats"] := by
  decide

/-- C5 (amended): for every page text, dictionary and minimum word length,
the matcher returns exactly the set of tokens obtained by splitting the text
on the SPACE character (U+0020) only — not on general whitespace — and
lowercasing each token, keeping only tokens whose length is strictly greater
than the minimum word length and that are present in the dictionary. -/
theorem c5_space_split_matcher (content : String) (dict : List String)
    (mn : Nat) (w : String) :
    w ∈ matchWords content dict mn ↔
      (w ∈ (jsSplit content (fun c => c == ' ')).map jsToLower ∧
        mn < w.length ∧ dict.contains w = true) := by
  rw [matchWords, mem_dedupFirst, List.mem_filter, pageWords, List.mem_filter]
  simp [and_assoc]

/-- Witness for C5 (amended): concrete instance of the characterization. -/
theorem c5_space_split_matcher_witness :
    "dog" ∈ matchWords "the dog sat" ["dog", "cat"] 2 ↔
      ("dog" ∈ (jsSplit "the dog sat" (fun c => c == ' ')).map jsToLower ∧
        2 < "dog".length ∧ (["dog", "cat"] : List String).contains "dog" = true) :=
  c5_space_split_matcher "the dog sat" ["dog", "cat"] 2 "dog"

/-- C6 counterexample: with dictionary `{"dog","cat"}`, minimum word length
3 and page text `"the dog sat"`, the match result is NOT `{"dog"}`: every
token has length exactly 3, and the code keeps only tokens whose length is
strictly greater than the minimum, so all three are discarded. -/
theorem c6_counterexample :
    matchWords "the dog sat" ["dog", "cat"] 3 ≠ ["dog"] := by
  decide

/-- C6 (amended): with dictionary `{"dog","cat"}`, minimum word length 3 and
page text `"the dog sat"`, the match result is the empty set (all three
tokens have length 3, which is not strictly greater than 3); the claimed
result `{"dog"}` is what the matcher returns at minimum word length 2. -/
theorem c6_empty_match :
    matchWords "the dog sat" ["dog", "cat"] 3 = [] ∧
    matchWords "the dog sat" ["dog", "cat"] 2 = ["dog"] := by
  decide

/-- Crawler state for the C1 scenario: `"https://dup.test"` has already been
crawled (counter and numberAdded are 1). -/
def stC1 : CrawlState :=
  ⟨["seekr"], [], 3, false, ["https://dup.test"], 1, 1, []⟩

/-- C1: evaluation of `performCrawl` at the failing input.  The
already-crawled early `return` of crawler.ts lines 146-151 sits inside
`if (callback)`, so when no completion callback is supplied a second attempt
at an already-crawled URL is NOT a no-op: the URL is fetched and processed
again (the counter increments and a second Found result is emitted), while
the same attempt with a callback correctly short-circuits to
AlreadyCrawled. -/
theorem c1_duplicate_url_reprocessed_without_callback :
    performCrawl stC1 "https://dup.test" false (.success "seekr seekr" []) true =
      ⟨{ stC1 with counter := 2 },
        [CrawlResult.found "https://dup.test" ["seekr"] []], none⟩ ∧
    performCrawl stC1 "https://dup.test" true (.success "seekr seekr" []) true =
      ⟨stC1, [], some (CrawlResult.alreadyCrawled "https://dup.test")⟩ := by
  decide

/-- Crawler state for the C2 scenario: interesting domains `{"example.com"}`,
nothing crawled yet. -/
def stC2 : CrawlState :=
  ⟨["seekr"], ["example.com"], 3, false, [], 0, 0, []⟩

/-- C2: evaluation of `performCrawl` at the failing input.  The page returns
the links `["https://example.com/a","https://other.com/b"]` and
`"example.com"` is an interesting domain (the hostname classifier agrees),
yet nothing is enqueued — the queue stays empty and `numberAdded` stays 0 —
because both `.filter` callbacks on crawler.ts lines 209-217 have block
bodies without `return` and therefore drop every link. -/
theorem c2_interesting_link_not_enqueued :
    (performCrawl stC2 "https://seed.test" true
        (.success "no matching content" ["https://example.com/a", "https://other.com/b"])
        true).state.queue = [] ∧
    (performCrawl stC2 "https://seed.test" true
        (.success "no matching content" ["https://example.com/a", "https://other.com/b"])
        true).state.numberAdded = 0 ∧
    (CrawlableLink.mk "https://example.com/a").hostname = "example.com" ∧
    stC2.interestingDomains.contains (CrawlableLink.mk "https://example.com/a").hostname = true ∧
    validLinks ["https://example.com/a", "https://other.com/b"] = [] := by
  decide

/-- Crawler state for the C4 scenario: screenshots enabled, dictionary
`{"seekr"}`, nothing crawled yet. -/
def stC4 : CrawlState :=
  ⟨["seekr"], [], 3, true, [], 0, 0, []⟩

/-- C4 counterexample: screenshots are enabled, the page matches (`matches =
{"seekr"}` is non-empty), and the screenshot capture fails.  The emitted
result is `{found:false, url, error}` — not a Found result carrying the
matches and links — and nothing is passed to the output sink: the
`page.screenshot` call on crawler.ts lines 236-243 sits inside the `try`
before `this.output(result)`, so its failure jumps to the `catch`, which
overwrites the Found result. -/
theorem c4_counterexample :
    (performCrawl stC4 "https://c.test" true (.success "seekr seekr" []) false).callbackOut =
      some (CrawlResult.failed "https://c.test") ∧
    (performCrawl stC4 "https://c.test" true (.success "seekr seekr" []) false).sinkOut = [] ∧
    matchWords "seekr seekr" stC4.dictionary stC4.minimumWordLength = ["seekr"] := by
  decide

/-- C4 (amended): for every processed page whose match set is non-empty and
for which screenshots are enabled, a failure of the screenshot capture DOES
change the emitted result: the task yields a failure result
(`{found:false, url, error}`) instead of Found, the matches and links are
dropped, and nothing is passed to the output sink. -/
theorem c4_screenshot_failure_changes_result
    (st : CrawlState) (url : String) (cb : Bool) (content : String)
    (hrefs : List String)
    (h1 : st.crawledUrls.contains url = false)
    (h2 : st.takeScreenshots = true)
    (h3 : matchWords content st.dictionary st.minimumWordLength ≠ []) :
    (performCrawl st url cb (.success content hrefs) false).sinkOut = [] ∧
    (performCrawl st url cb (.success content hrefs) false).callbackOut =
      (if cb then some (CrawlResult.failed url) else none) := by
  have hm : (matchWords content st.dictionary st.minimumWordLength).isEmpty = false := by
    cases hq : matchWords content st.dictionary st.minimumWordLength with
    | nil => exact absurd hq h3
    | cons a l => rfl
  have h1' : ¬ (url ∈ st.crawledUrls) := by
    intro hmem
    rw [(contains_iff_mem _ _).mpr hmem] at h1
    cases h1
  constructor <;> simp [performCrawl, h1', h2, hm]

/-- Witness for C4 (amended): the concrete scenario of the counterexample
state satisfies the hypotheses, and the conclusion follows by the theorem. -/
theorem c4_screenshot_failure_changes_result_witness :
    (stC4.crawledUrls.contains "https://c.test" = false ∧
      stC4.takeScreenshots = true ∧
      matchWords "seekr seekr" stC4.dictionary stC4.minimumWordLength ≠ []) ∧
    ((performCrawl stC4 "https://c.test" true (.success "seekr seekr" []) false).sinkOut = [] ∧
      (performCrawl stC4 "https://c.test" true (.success "seekr seekr" []) false).callbackOut =
        (if true then some (CrawlResult.failed "https://c.test") else none)) :=
  ⟨⟨by decide, by decide, by decide⟩,
    c4_screenshot_failure_changes_result stC4 "https://c.test" true "seekr seekr" []
      (by decide) (by decide) (by decide)⟩

theorem not_mem_of_contains_false {l : List String} {a : String}
    (h : l.contains a = false) : ¬ a ∈ l := by
  intro hmem
  rw [(contains_iff_mem _ _).mpr hmem] at h
  cases h

/-- Crawler state for the C7 scenario: dictionary `{"seekr"}`, nothing
crawled yet, screenshots off. -/
def stC7 : CrawlState :=
  ⟨["seekr"], [], 3, false, [], 0, 0, []⟩

/-- C7 counterexample: the page matches and carries one outbound link,
`"not_a_url"`, which is not crawlable.  The claim says such a link is
excluded from the expansion candidates but still included in the `links`
field of the Found result; in the code the Found result's `links` field is
`validLinks`, from which the crawlability filter (broken into dropping
everything) has removed it, so the emitted Found result has an empty `links`
list that does not contain the non-crawlable link. -/
theorem c7_counterexample :
    (performCrawl stC7 "https://a.test" true (.success "seekr page" ["not_a_url"]) true).sinkOut =
      [CrawlResult.found "https://a.test" ["seekr"] []] ∧
    ¬ ("not_a_url" ∈ resultLinks (CrawlResult.found "https://a.test" ["seekr"] [])) := by
  decide

/-- C7 (amended): non-crawlable outbound links are excluded from the
candidate links for frontier expansion AND from the `links` field of the
emitted Found result.  In the code as written the crawlability filter drops
every link, so no link is ever a candidate (the queue is unchanged) and the
`links` field of every emitted result is empty. -/
theorem c7_links_field_empty (st : CrawlState) (url : String) (cb : Bool)
    (content : String) (hrefs : List String) (sOk : Bool) :
    (performCrawl st url cb (.success content hrefs) sOk).state.queue = st.queue ∧
    ((performCrawl st url cb (.success content hrefs) sOk).sinkOut).all
      (fun r => (resultLinks r).isEmpty) = true := by
  simp only [performCrawl, validLinks_eq_nil, interesting_filter_eq_nil,
    List.append_nil, List.length_nil, Nat.add_zero]
  split
  · exact ⟨rfl, rfl⟩
  · split
    · exact ⟨rfl, rfl⟩
    · split
      · exact ⟨rfl, rfl⟩
      · exact ⟨rfl, rfl⟩

/-- Witness for C7 (amended): concrete instance with a non-crawlable link. -/
theorem c7_links_field_empty_witness :
    (performCrawl stC7 "https://a.test" true (.success "seekr page" ["not_a_url"]) true).state.queue =
      stC7.queue ∧
    ((performCrawl stC7 "https://a.test" true (.success "seekr page" ["not_a_url"]) true).sinkOut).all
      (fun r => (resultLinks r).isEmpty) = true :=
  c7_links_field_empty stC7 "https://a.test" true "seekr page" ["not_a_url"] true

/-- Crawler state for the C8 scenario: dictionary `{"seekr"}`, nothing
crawled yet. -/
def stC8 : CrawlState :=
  ⟨["seekr"], [], 3, false, [], 0, 0, []⟩

/-- C8 counterexample: a task whose page has no dictionary match produces a
NotFound result, but that result is NOT passed to the Sink: the output list
is empty (only the completion callback receives it).  In the code only the
Found branch calls `this.output(result)` (crawler.ts line 245). -/
theorem c8_counterexample :
    (performCrawl stC8 "https://b.test" true (.success "nothing here now" []) true).sinkOut = [] ∧
    (performCrawl stC8 "https://b.test" true (.success "nothing here now" []) true).callbackOut =
      some (CrawlResult.notFound "https://b.test") := by
  decide

/-- C8 (amended): every processed task produces exactly one CrawlResult, but
only Found results are passed to the Sink (the configured output callback),
each at most once per task; NotFound, AlreadyCrawled and Failed results are
handed only to the task's completion callback when one is supplied. -/
theorem c8_only_found_to_sink (st : CrawlState) (url : String) (cb : Bool)
    (fetch : FetchOutcome) (sOk : Bool) :
    ((performCrawl st url cb fetch sOk).sinkOut).all CrawlResult.isFound = true ∧
    (performCrawl st url cb fetch sOk).sinkOut.length ≤ 1 := by
  cases fetch with
  | fetchError =>
    simp only [performCrawl]
    split
    · exact ⟨rfl, by simp⟩
    · exact ⟨rfl, by simp⟩
  | success content hrefs =>
    simp only [performCrawl]
    split
    · exact ⟨rfl, by simp⟩
    · split
      · exact ⟨rfl, by simp⟩
      · split
        · exact ⟨rfl, by simp⟩
        · exact ⟨rfl, by simp⟩

/-- Witness for C8 (amended): concrete instance on a non-matching page. -/
theorem c8_only_found_to_sink_witness :
    ((performCrawl stC8 "https://b.test" true (.success "nothing here now" []) true).sinkOut).all
      CrawlResult.isFound = true ∧
    (performCrawl stC8 "https://b.test" true (.success "nothing here now" []) true).sinkOut.length ≤ 1 :=
  c8_only_found_to_sink stC8 "https://b.test" true (.success "nothing here now" []) true

/-- Crawler state for the C10 scenario: dictionary `{"seekr"}`, nothing
crawled yet. -/
def stC10 : CrawlState :=
  ⟨["seekr"], [], 3, false, [], 0, 0, []⟩

/-- C10 counterexample: after a failed fetch of a fresh URL the URL is
recorded and the counter incremented, but the URL CAN be retried within the
run: re-processing the same URL without a completion callback falls through
the already-crawled check (the early `return` sits inside `if (callback)`),
fetches the page again, emits a Found result and increments the counter a
second time. -/
theorem c10_counterexample :
    (performCrawl stC10 "https://r.test" false .fetchError true).state.counter = 1 ∧
    (performCrawl stC10 "https://r.test" false .fetchError true).state.crawledUrls =
      ["https://r.test"] ∧
    (performCrawl (performCrawl stC10 "https://r.test" false .fetchError true).state
        "https://r.test" false (.success "seekr seekr" []) true).sinkOut =
      [CrawlResult.found "https://r.test" ["seekr"] []] ∧
    (performCrawl (performCrawl stC10 "https://r.test" false .fetchError true).state
        "https://r.test" false (.success "seekr seekr" []) true).state.counter = 2 := by
  decide

/-- C10 (amended): when a fetch fails for a task that was not already
crawled, the URL remains recorded in the crawled-URLs set and the processed
counter remains incremented (the claim and counter increment happen before
the fetch and the error path does not roll them back); the task's result is
the failure result.  A subsequent attempt at the same URL THAT SUPPLIES a
completion callback yields AlreadyCrawled without reprocessing — but an
attempt without a callback re-processes the URL (the early return is
conditional on the callback), so "can never be retried" holds only for
attempts with a callback. -/
theorem c10_failed_url_recorded (st : CrawlState) (url : String) (cb : Bool)
    (sOk : Bool) (fetch2 : FetchOutcome) (sOk2 : Bool)
    (h : st.crawledUrls.contains url = false) :
    (performCrawl st url cb .fetchError sOk).state.crawledUrls.contains url = true ∧
    (performCrawl st url cb .fetchError sOk).state.counter = st.counter + 1 ∧
    (performCrawl st url cb .fetchError sOk).callbackOut =
      (if cb then some (CrawlResult.failed url) else none) ∧
    performCrawl (performCrawl st url cb .fetchError sOk).state url true fetch2 sOk2 =
      ⟨(performCrawl st url cb .fetchError sOk).state, [],
        some (CrawlResult.alreadyCrawled url)⟩ := by
  have h' : ¬ url ∈ st.crawledUrls := not_mem_of_contains_false h
  have hstate :
      (performCrawl st url cb .fetchError sOk).state =
        { st with crawledUrls := st.crawledUrls ++ [url], counter := st.counter + 1 } := by
    simp [performCrawl, h']
  have hcontains :
      (st.crawledUrls ++ [url]).contains url = true := by
    rw [contains_iff_mem]
    exact List.mem_append_right _ (List.mem_singleton.mpr rfl)
  refine ⟨?_, ?_, ?_, ?_⟩
  · rw [hstate]
    exact hcontains
  · rw [hstate]
  · simp [performCrawl, h']
  · rw [hstate]
    simp [performCrawl, hcontains, not_mem_of_contains_false,
      (contains_iff_mem _ _).mp hcontains]

/-- Witness for C10 (amended): the concrete failing-fetch scenario. -/
theorem c10_failed_url_recorded_witness :
    (stC10.crawledUrls.contains "https://r.test" = false) ∧
    ((performCrawl stC10 "https://r.test" false .fetchError true).state.crawledUrls.contains
        "https://r.test" = true ∧
      (performCrawl stC10 "https://r.test" false .fetchError true).state.counter =
        stC10.counter + 1 ∧
      (performCrawl stC10 "https://r.test" false .fetchError true).callbackOut =
        (if false then some (CrawlResult.failed "https://r.test") else none) ∧
      performCrawl (performCrawl stC10 "https://r.test" false .fetchError true).state
          "https://r.test" true FetchOutcome.fetchError true =
        ⟨(performCrawl stC10 "https://r.test" false .fetchError true).state, [],
          some (CrawlResult.alreadyCrawled "https://r.test")⟩) :=
  ⟨by decide,
    c10_failed_url_recorded stC10 "https://r.test" false true FetchOutcome.fetchError true
      (by decide)⟩
